import Mathlib

set_option maxHeartbeats 1000000

/-!
Formal model of the ShaderToy-like viewer (source files src/camera.rs,
src/app.rs, src/main.rs).  Machine floats (f32) are modelled as real
numbers, window sizes (u32) as natural numbers, and fallible external
calls (surface acquisition, file reading, WGSL compilation) as explicit
arguments or Except values.
-/

namespace ShaderToy

/-- Subset of the winit ElementState enum used by src/camera.rs. -/
inductive ElementState
  | Pressed
  | Released
deriving DecidableEq

/-- Subset of the winit VirtualKeyCode enum: the keys matched in
src/camera.rs, the reload key R matched in src/app.rs, and one
representative key that no handler matches. -/
inductive VirtualKeyCode
  | W | A | S | D
  | Up | Down | Left | Right
  | Minus | NumpadSubtract | Equals | NumpadAdd
  | R
  | Escape
deriving DecidableEq

/-- Subset of the winit WindowEvent enum relevant to the program. -/
inductive WindowEvent
  | KeyboardInput (state : ElementState) (virtual_keycode : Option VirtualKeyCode)
  | Resized (width height : Nat)
  | CloseRequested
  | Other
deriving DecidableEq

/-- The CameraUniform struct of src/camera.rs: pan offset, zoom and
aspect ratio, each an f32 modelled as a real number. -/
@[ext]
structure CameraUniform where
  offset : ℝ × ℝ
  zoom : ℝ
  aspect_ratio : ℝ

/-- CameraUniform::new of src/camera.rs: zoom 1.0, offset (0, 0), and the
given aspect ratio. -/
def CameraUniform.new (aspect_ratio : ℝ) : CameraUniform :=
  { zoom := 1, offset := (0, 0), aspect_ratio := aspect_ratio }

/-- The CameraController struct of src/camera.rs: six held-key flags plus
the pending aspect-ratio override. -/
@[ext]
structure CameraController where
  is_up_pressed : Bool
  is_down_pressed : Bool
  is_left_pressed : Bool
  is_right_pressed : Bool
  zoom_in : Bool
  zoom_out : Bool
  aspect_ratio : Option ℝ

/-- CameraController::new of src/camera.rs: every flag false, no pending
aspect-ratio override. -/
def CameraController.new : CameraController :=
  { is_up_pressed := false
    is_down_pressed := false
    is_left_pressed := false
    is_right_pressed := false
    zoom_in := false
    zoom_out := false
    aspect_ratio := none }

/-- CameraController::process_events of src/camera.rs.  Returns the
controller after the event together with the consumed flag the Rust
method returns.  Only a KeyboardInput event with a Some keycode among the
twelve handled keys mutates a flag; every other event falls to the
wildcard arm and returns false. -/
def process_events (self : CameraController) (event : WindowEvent) :
    CameraController × Bool :=
  match event with
  | WindowEvent.KeyboardInput state (some keycode) =>
    let is_pressed : Bool := state == ElementState.Pressed
    match keycode with
    | VirtualKeyCode.W | VirtualKeyCode.Up =>
        ({ self with is_up_pressed := is_pressed }, true)
    | VirtualKeyCode.A | VirtualKeyCode.Left =>
        ({ self with is_left_pressed := is_pressed }, true)
    | VirtualKeyCode.S | VirtualKeyCode.Down =>
        ({ self with is_down_pressed := is_pressed }, true)
    | VirtualKeyCode.D | VirtualKeyCode.Right =>
        ({ self with is_right_pressed := is_pressed }, true)
    | VirtualKeyCode.Minus | VirtualKeyCode.NumpadSubtract =>
        ({ self with zoom_out := is_pressed }, true)
    | VirtualKeyCode.Equals | VirtualKeyCode.NumpadAdd =>
        ({ self with zoom_in := is_pressed }, true)
    | _ => (self, false)
  | _ => (self, false)

/-- CameraController::update_aspect_ratio of src/camera.rs: records a
pending override. -/
def update_aspect_ratio (self : CameraController) (aspect_ratio : ℝ) :
    CameraController :=
  { self with aspect_ratio := some aspect_ratio }

/-- CameraController::update_camera of src/camera.rs.  speed is 1.0 in the
source; amount = dt * speed * camera.zoom reads the zoom held at entry;
zoom_amount = 1.7f32.powf(dt) is modelled by the real power 1.7 ^ dt.
The branches run in source order: pending aspect override (consumed and
counted as an update), up, down, left, right, zoom_out (multiply), zoom_in
(divide).  Returns the controller, the camera and the updated flag. -/
noncomputable def update_camera (self : CameraController) (dt : ℝ)
    (camera : CameraUniform) : CameraController × CameraUniform × Bool :=
  let speed : ℝ := 1
  let amount : ℝ := dt * speed * camera.zoom
  let zoom_amount : ℝ := (1.7 : ℝ) ^ dt
  let self1 :=
    match self.aspect_ratio with
    | some _ => { self with aspect_ratio := none }
    | none => self
  let c1 :=
    match self.aspect_ratio with
    | some r => { camera with aspect_ratio := r }
    | none => camera
  let u1 : Bool := self.aspect_ratio.isSome
  let c2 := if self.is_up_pressed then
      { c1 with offset := (c1.offset.1, c1.offset.2 - amount) } else c1
  let u2 := if self.is_up_pressed then true else u1
  let c3 := if self.is_down_pressed then
      { c2 with offset := (c2.offset.1, c2.offset.2 + amount) } else c2
  let u3 := if self.is_down_pressed then true else u2
  let c4 := if self.is_left_pressed then
      { c3 with offset := (c3.offset.1 + amount, c3.offset.2) } else c3
  let u4 := if self.is_left_pressed then true else u3
  let c5 := if self.is_right_pressed then
      { c4 with offset := (c4.offset.1 - amount, c4.offset.2) } else c4
  let u5 := if self.is_right_pressed then true else u4
  let c6 := if self.zoom_out then { c5 with zoom := c5.zoom * zoom_amount } else c5
  let u6 := if self.zoom_out then true else u5
  let c7 := if self.zoom_in then { c6 with zoom := c6.zoom / zoom_amount } else c6
  let u7 := if self.zoom_in then true else u6
  (self1, c7, u7)

/-!
Model of src/app.rs.  The wgpu handles themselves are external; the model
keeps the data the program itself computes and stores: the surface
configuration width and height, the size and sample count of the
multisampled offscreen texture, and the identity and validity of the
active render pipeline.  Where app.rs calls a fallible external primitive
(surface texture acquisition, file read, WGSL compilation) the outcome of
that primitive is an explicit argument.
-/

/-- The width and height of the wgpu SurfaceConfiguration built in
App::new_common.  The remaining fields (usage, format, present_mode) are
fixed at startup and never written again, so they are omitted. -/
@[ext]
structure SurfaceConfiguration where
  width : Nat
  height : Nat
deriving DecidableEq

/-- The data determining the multisampled offscreen texture: the extent
copied from the surface configuration and the sample count. -/
@[ext]
structure Framebuffer where
  width : Nat
  height : Nat
  sample_count : Nat
deriving DecidableEq

/-- create_multisampled_framebuffer of src/app.rs: the texture extent is
config.width by config.height, with the given sample count. -/
def create_multisampled_framebuffer (config : SurfaceConfiguration)
    (sample_count : Nat) : Framebuffer :=
  { width := config.width, height := config.height, sample_count := sample_count }

/-- A render pipeline as observable through this program: the shader
source it was built from and whether that source compiled.  With the
uncaptured-error callback installed in App::new_common, wgpu returns an
invalid pipeline object (and logs) instead of failing the call. -/
@[ext]
structure RenderPipeline where
  source : String
  valid : Bool
deriving DecidableEq

/-- The mutable part of AppInner touched by the resize arm of App::run:
surface configuration, offscreen target, and the fixed sample count. -/
@[ext]
structure AppInner where
  config : SurfaceConfiguration
  multisampled_framebuffer : Framebuffer
  sample_count : Nat
deriving DecidableEq

/-- GPU-facing calls issued by the resize arm, recorded in issue order. -/
inductive GpuAction
  | configure_surface (width height : Nat)
  | rebuild_framebuffer (width height : Nat)
  | request_redraw
deriving DecidableEq

/-- Result of one pass through the Resized arm of the event loop. -/
structure ResizeResult where
  inner : AppInner
  controller : CameraController
  actions : List GpuAction

/-- The WindowEvent::Resized arm of App::run in src/app.rs.  A zero width
or height returns immediately, touching nothing; otherwise the
configuration width and height are set, the camera controller receives the
pending aspect-ratio override, the surface is reconfigured, the
multisampled framebuffer is rebuilt from the new configuration, and a
redraw is requested, in that order. -/
noncomputable def handle_resize (inner : AppInner) (controller : CameraController)
    (width height : Nat) : ResizeResult :=
  if width == 0 || height == 0 then
    ⟨inner, controller, []⟩
  else
    let config : SurfaceConfiguration := { width := width, height := height }
    let controller := update_aspect_ratio controller ((width : ℝ) / (height : ℝ))
    let fb := create_multisampled_framebuffer config inner.sample_count
    ⟨{ inner with config := config, multisampled_framebuffer := fb },
     controller,
     [GpuAction.configure_surface config.width config.height,
      GpuAction.rebuild_framebuffer fb.width fb.height,
      GpuAction.request_redraw]⟩

/-- The error cases of wgpu get_current_texture (wgpu::SurfaceError). -/
inductive SurfaceError
  | Timeout
  | Outdated
  | Lost
  | OutOfMemory
deriving DecidableEq

/-- Observable outcome of App::draw: either a frame is submitted and
presented, or the process aborts. -/
inductive DrawOutcome
  | presented
  | panicked
deriving DecidableEq

/-- App::draw of src/app.rs.  The result of surface.get_current_texture is
passed in.  On Ok the method records the render pass, submits it and
presents the frame; on Err the expect call aborts the whole process with
the message about failing to acquire the next swap chain texture. -/
def draw (acquire : Except SurfaceError Unit) : DrawOutcome :=
  match acquire with
  | Except.ok _ => DrawOutcome.presented
  | Except.error _ => DrawOutcome.panicked

/-- Observable outcome of App::reload_shader: either the process aborts
inside the expect or unwrap on the file read, or the method runs to the
end, having logged a compile error through the uncaptured-error callback
iff the new source did not compile. -/
inductive ReloadOutcome
  | panicked
  | completed (compile_error_logged : Bool)
deriving DecidableEq

/-- App::reload_shader of src/app.rs.  The file read result and the WGSL
front end are passed in as the read outcome and the compiles oracle.  A
failed read aborts (expect or unwrap).  Otherwise create_shader_module
always yields a module carrying the new source (invalid and logged when it
does not compile), and the closure handed to generate_render_pipeline
assigns the freshly created pipeline to self.inner.render_pipeline
unconditionally. -/
def reload_shader (render_pipeline : RenderPipeline)
    (file : Except String String) (compiles : String → Bool) :
    RenderPipeline × ReloadOutcome :=
  match file with
  | Except.error _ => (render_pipeline, ReloadOutcome.panicked)
  | Except.ok data =>
      let shader : RenderPipeline := { source := data, valid := compiles data }
      (shader, ReloadOutcome.completed (!compiles data))

/-!
Helper definitions used to state the input-handling properties.
-/

/-- Names for the six held-key flags of CameraController. -/
inductive FlagName
  | up
  | down
  | left
  | right
  | zoomIn
  | zoomOut
deriving DecidableEq

/-- Read one held-key flag of the controller. -/
def getFlag : FlagName → CameraController → Bool
  | FlagName.up, c => c.is_up_pressed
  | FlagName.down, c => c.is_down_pressed
  | FlagName.left, c => c.is_left_pressed
  | FlagName.right, c => c.is_right_pressed
  | FlagName.zoomIn, c => c.zoom_in
  | FlagName.zoomOut, c => c.zoom_out

/-- Write one held-key flag of the controller. -/
def setFlag : FlagName → Bool → CameraController → CameraController
  | FlagName.up, b, c => { c with is_up_pressed := b }
  | FlagName.down, b, c => { c with is_down_pressed := b }
  | FlagName.left, b, c => { c with is_left_pressed := b }
  | FlagName.right, b, c => { c with is_right_pressed := b }
  | FlagName.zoomIn, b, c => { c with zoom_in := b }
  | FlagName.zoomOut, b, c => { c with zoom_out := b }

/-- The flag a keycode is routed to by the match in process_events, if
any: W and Up to up, A and Left to left, S and Down to down, D and Right
to right, Minus and NumpadSubtract to zoomOut, Equals and NumpadAdd to
zoomIn. -/
def keyTarget : VirtualKeyCode → Option FlagName
  | VirtualKeyCode.W => some FlagName.up
  | VirtualKeyCode.Up => some FlagName.up
  | VirtualKeyCode.A => some FlagName.left
  | VirtualKeyCode.Left => some FlagName.left
  | VirtualKeyCode.S => some FlagName.down
  | VirtualKeyCode.Down => some FlagName.down
  | VirtualKeyCode.D => some FlagName.right
  | VirtualKeyCode.Right => some FlagName.right
  | VirtualKeyCode.Minus => some FlagName.zoomOut
  | VirtualKeyCode.NumpadSubtract => some FlagName.zoomOut
  | VirtualKeyCode.Equals => some FlagName.zoomIn
  | VirtualKeyCode.NumpadAdd => some FlagName.zoomIn
  | _ => none

/-- The flag written by an event together with the value written: a
keyboard event with a routed keycode writes the pressed state of the
event; every other event writes nothing. -/
def eventTarget : WindowEvent → Option (FlagName × Bool)
  | WindowEvent.KeyboardInput state (some keycode) =>
      (keyTarget keycode).map (fun f => (f, state == ElementState.Pressed))
  | _ => none

/-- Fold process_events over a list of events, keeping the controller. -/
def processAll (c : CameraController) (es : List WindowEvent) : CameraController :=
  es.foldl (fun c e => (process_events c e).1) c

/-- The last value written to flag f by the events of the list, or the
default if none of them writes f. -/
def lastWrite (f : FlagName) (es : List WindowEvent) (dflt : Bool) : Bool :=
  es.foldl
    (fun acc e =>
      match eventTarget e with
      | some (g, b) => if g = f then b else acc
      | none => acc)
    dflt

/-- A controller holding only the pan-right flag, with no pending
override: the state reached from CameraController::new by pressing D. -/
def right_only : CameraController :=
  { is_up_pressed := false
    is_down_pressed := false
    is_left_pressed := false
    is_right_pressed := true
    zoom_in := false
    zoom_out := false
    aspect_ratio := none }

/-- Iterate update_camera over a list of frame times. -/
noncomputable def run_ticks :
    CameraController → List ℝ → CameraUniform → CameraController × CameraUniform
  | c, [], cam => (c, cam)
  | c, dt :: rest, cam =>
      let r := update_camera c dt cam
      run_ticks r.1 rest r.2.1

end ShaderToy

namespace ShaderToy

/-- Closed form of update_camera: the controller loses its pending
override, each camera field is the sequential composition of the branches
taken, and the updated flag is the disjunction of the seven branch
conditions. -/
theorem update_camera_eq (self : CameraController) (dt : ℝ)
    (camera : CameraUniform) :
    update_camera self dt camera =
      ({ self with aspect_ratio := none },
       { offset :=
           ((if self.is_right_pressed then
               (if self.is_left_pressed then
                  camera.offset.1 + dt * 1 * camera.zoom
                else camera.offset.1) - dt * 1 * camera.zoom
             else
               (if self.is_left_pressed then
                  camera.offset.1 + dt * 1 * camera.zoom
                else camera.offset.1)),
            (if self.is_down_pressed then
               (if self.is_up_pressed then
                  camera.offset.2 - dt * 1 * camera.zoom
                else camera.offset.2) + dt * 1 * camera.zoom
             else
               (if self.is_up_pressed then
                  camera.offset.2 - dt * 1 * camera.zoom
                else camera.offset.2))),
         zoom :=
           (if self.zoom_in then
              (if self.zoom_out then camera.zoom * (1.7 : ℝ) ^ dt
               else camera.zoom) / (1.7 : ℝ) ^ dt
            else
              (if self.zoom_out then camera.zoom * (1.7 : ℝ) ^ dt
               else camera.zoom)),
         aspect_ratio := self.aspect_ratio.getD camera.aspect_ratio },
       (self.aspect_ratio.isSome || self.is_up_pressed || self.is_down_pressed ||
        self.is_left_pressed || self.is_right_pressed ||
        self.zoom_out || self.zoom_in)) := by
  rcases self with ⟨u, d, l, r, zi, zo, a⟩
  rcases camera with ⟨⟨ox, oy⟩, z, ar⟩
  cases a <;> cases u <;> cases d <;> cases l <;> cases r <;> cases zo <;>
    cases zi <;> rfl

/-- C10: for every aspect ratio a, CameraUniform.new a has offset (0, 0),
zoom 1 and aspect ratio a; App::new_common builds the startup camera with
exactly this constructor applied to width / height. -/
theorem cameraUniform_new_fields (a : ℝ) :
    (CameraUniform.new a).offset = (0, 0) ∧ (CameraUniform.new a).zoom = 1 ∧
      (CameraUniform.new a).aspect_ratio = a :=
  ⟨rfl, rfl, rfl⟩

/-- C1 counterexample: when get_current_texture fails, App::draw aborts
the whole process through expect; the frame is not merely dropped and the
event loop does not continue. -/
theorem draw_acquire_failure_aborts_process :
    draw (Except.error SurfaceError.Outdated) = DrawOutcome.panicked := rfl

/-- C1 amended: App::draw presents the frame when image acquisition
succeeds and aborts the process (panic inside expect) when acquisition
fails, for every acquisition error. -/
theorem draw_outcome (e : SurfaceError) :
    draw (Except.error e) = DrawOutcome.panicked ∧
    draw (Except.ok ()) = DrawOutcome.presented :=
  ⟨rfl, rfl⟩

/-- C2 counterexample: with a readable source that fails to compile, the
active pipeline object is still replaced (by the invalid freshly built
one), and with an unreadable source the process aborts instead of
logging. -/
theorem reload_failure_replaces_pipeline :
    (reload_shader { source := "old", valid := true } (Except.ok "bad")
        (fun _ => false)).1 ≠ ({ source := "old", valid := true } : RenderPipeline) ∧
    (reload_shader { source := "old", valid := true } (Except.ok "bad")
        (fun _ => false)).1 = ({ source := "bad", valid := false } : RenderPipeline) ∧
    (reload_shader { source := "old", valid := true } (Except.error "io")
        (fun _ => false)).2 = ReloadOutcome.panicked := by
  refine ⟨by decide, rfl, rfl⟩

/-- C2 amended: App::reload_shader aborts the process when the shader
file cannot be read; when the file is read it unconditionally replaces the
active pipeline with one built from the new source, logging a compile
error through the uncaptured-error callback iff the source does not
compile. -/
theorem reload_shader_behavior (p : RenderPipeline) (err data : String)
    (compiles : String → Bool) :
    reload_shader p (Except.error err) compiles = (p, ReloadOutcome.panicked) ∧
    reload_shader p (Except.ok data) compiles =
      (({ source := data, valid := compiles data } : RenderPipeline),
       ReloadOutcome.completed (!compiles data)) :=
  ⟨rfl, rfl⟩

/-- C7: the Resized arm is a strict no-op when either dimension is zero;
otherwise it sets the configuration to the new size, records the aspect
override, and issues surface reconfiguration, framebuffer rebuild and a
redraw request, in that order. -/
theorem resize_behavior (inner : AppInner) (ctrl : CameraController)
    (w h : Nat) :
    (w = 0 ∨ h = 0 → handle_resize inner ctrl w h = ⟨inner, ctrl, []⟩) ∧
    (w ≠ 0 → h ≠ 0 →
      handle_resize inner ctrl w h =
        ⟨{ config := ⟨w, h⟩,
           multisampled_framebuffer := ⟨w, h, inner.sample_count⟩,
           sample_count := inner.sample_count },
         update_aspect_ratio ctrl ((w : ℝ) / (h : ℝ)),
         [GpuAction.configure_surface w h,
          GpuAction.rebuild_framebuffer w h,
          GpuAction.request_redraw]⟩) := by
  constructor
  · intro h0
    have hc : (w == 0 || h == 0) = true := by
      rcases h0 with h0 | h0 <;> simp [h0]
    simp [handle_resize, hc]
  · intro hw hh
    have hc : (w == 0 || h == 0) = false := by simp [hw, hh]
    simp [handle_resize, hc, create_multisampled_framebuffer]

/-- C7 witness: a concrete minimized resize leaves a concrete engine
state untouched with no GPU calls, and a concrete 800 by 600 resize
reconfigures both the surface and the framebuffer to 800 by 600. -/
theorem resize_behavior_witness :
    handle_resize ⟨⟨640, 480⟩, ⟨640, 480, 4⟩, 4⟩ CameraController.new 0 600 =
      ⟨⟨⟨640, 480⟩, ⟨640, 480, 4⟩, 4⟩, CameraController.new, []⟩ ∧
    handle_resize ⟨⟨640, 480⟩, ⟨640, 480, 4⟩, 4⟩ CameraController.new 800 600 =
      ⟨⟨⟨800, 600⟩, ⟨800, 600, 4⟩, 4⟩,
       update_aspect_ratio CameraController.new ((800 : ℝ) / (600 : ℝ)),
       [GpuAction.configure_surface 800 600,
        GpuAction.rebuild_framebuffer 800 600,
        GpuAction.request_redraw]⟩ :=
  ⟨(resize_behavior ⟨⟨640, 480⟩, ⟨640, 480, 4⟩, 4⟩ CameraController.new 0 600).1
      (Or.inl rfl),
   (resize_behavior ⟨⟨640, 480⟩, ⟨640, 480, 4⟩, 4⟩ CameraController.new 800 600).2
      (by decide) (by decide)⟩

/-- C3 counterexample: with only the up flag held and dt = 0, the tick
returns true although no field of the camera changed value during the
call. -/
theorem tick_true_without_field_change :
    (update_camera
        { is_up_pressed := true, is_down_pressed := false,
          is_left_pressed := false, is_right_pressed := false,
          zoom_in := false, zoom_out := false, aspect_ratio := none }
        0 (CameraUniform.new 1)).2.2 = true ∧
    (update_camera
        { is_up_pressed := true, is_down_pressed := false,
          is_left_pressed := false, is_right_pressed := false,
          zoom_in := false, zoom_out := false, aspect_ratio := none }
        0 (CameraUniform.new 1)).2.1 = CameraUniform.new 1 := by
  constructor
  · rfl
  · rw [update_camera_eq]
    simp [CameraUniform.new]

/-- C3 amended: update_camera returns true iff at least one held flag is
set or an aspect override is pending; this can hold even when no field of
CameraUniform changes value (for example dt = 0 with a pan flag held). -/
theorem tick_updated_iff (c : CameraController) (dt : ℝ) (cam : CameraUniform) :
    (update_camera c dt cam).2.2 = true ↔
      (c.aspect_ratio ≠ none ∨ c.is_up_pressed = true ∨ c.is_down_pressed = true ∨
       c.is_left_pressed = true ∨ c.is_right_pressed = true ∨
       c.zoom_out = true ∨ c.zoom_in = true) := by
  rw [update_camera_eq]
  simp [Option.isSome_iff_ne_none]
  tauto

/-- C4: update_camera returns false iff no held flag is set and no aspect
override is pending; a pending override always counts as an update, is
written to the camera, and is cleared from the controller by that tick. -/
theorem tick_false_iff_and_override_consumed (c : CameraController) (dt : ℝ)
    (cam : CameraUniform) :
    ((update_camera c dt cam).2.2 = false ↔
      c.is_up_pressed = false ∧ c.is_down_pressed = false ∧
      c.is_left_pressed = false ∧ c.is_right_pressed = false ∧
      c.zoom_in = false ∧ c.zoom_out = false ∧ c.aspect_ratio = none) ∧
    (∀ r : ℝ, c.aspect_ratio = some r →
      (update_camera c dt cam).2.2 = true ∧
      (update_camera c dt cam).2.1.aspect_ratio = r ∧
      (update_camera c dt cam).1.aspect_ratio = none) := by
  rw [update_camera_eq]
  constructor
  · simp [Option.isSome_iff_ne_none]
    tauto
  · intro r hr
    simp [hr]

/-- C4 witness: with a pending override numerically equal to the current
aspect ratio, a dt = 0 tick still reports an update, writes the override
into the camera, and clears the pending override. -/
theorem tick_override_witness :
    (update_camera { CameraController.new with aspect_ratio := some 2 } 0
        (CameraUniform.new 2)).2.2 = true ∧
    (update_camera { CameraController.new with aspect_ratio := some 2 } 0
        (CameraUniform.new 2)).2.1.aspect_ratio = 2 ∧
    (update_camera { CameraController.new with aspect_ratio := some 2 } 0
        (CameraUniform.new 2)).1.aspect_ratio = none :=
  (tick_false_iff_and_override_consumed
      { CameraController.new with aspect_ratio := some 2 } 0
      (CameraUniform.new 2)).2 2 rfl

/-- C5: for dt nonnegative, with zoom-out held and zoom-in not held the
new zoom is zoom times 1.7 ^ dt; with zoom-in held and zoom-out not held
it is zoom divided by 1.7 ^ dt; with neither held the zoom is unchanged. -/
theorem tick_zoom_formula (c : CameraController) (dt : ℝ) (cam : CameraUniform)
    (_hdt : 0 ≤ dt) :
    (c.zoom_out = true → c.zoom_in = false →
      (update_camera c dt cam).2.1.zoom = cam.zoom * (1.7 : ℝ) ^ dt) ∧
    (c.zoom_in = true → c.zoom_out = false →
      (update_camera c dt cam).2.1.zoom = cam.zoom / (1.7 : ℝ) ^ dt) ∧
    (c.zoom_in = false → c.zoom_out = false →
      (update_camera c dt cam).2.1.zoom = cam.zoom) := by
  refine ⟨fun h1 h2 => ?_, fun h1 h2 => ?_, fun h1 h2 => ?_⟩ <;>
    rw [update_camera_eq] <;> simp [h1, h2]

/-- C5 witness: one second of zoom-out from zoom 1 multiplies the zoom by
1.7 ^ 1. -/
theorem tick_zoom_witness :
    0 ≤ (1 : ℝ) ∧
    (update_camera { CameraController.new with zoom_out := true } 1
        (CameraUniform.new 1)).2.1.zoom =
      (CameraUniform.new 1).zoom * (1.7 : ℝ) ^ (1 : ℝ) :=
  ⟨by norm_num,
   (tick_zoom_formula { CameraController.new with zoom_out := true } 1
       (CameraUniform.new 1) (by norm_num)).1 rfl rfl⟩

/-- C9: the initial camera has positive zoom, and every tick with
nonnegative dt preserves positivity of the zoom, whatever flags are held
and whatever override is pending. -/
theorem zoom_positive_invariant :
    (∀ a : ℝ, 0 < (CameraUniform.new a).zoom) ∧
    ∀ (c : CameraController) (dt : ℝ) (cam : CameraUniform),
      0 ≤ dt → 0 < cam.zoom → 0 < (update_camera c dt cam).2.1.zoom := by
  refine ⟨fun a => one_pos, fun c dt cam _ hz => ?_⟩
  have hpow : (0 : ℝ) < (1.7 : ℝ) ^ dt := Real.rpow_pos_of_pos (by norm_num) dt
  rw [update_camera_eq]
  dsimp only
  split_ifs <;>
    first
      | exact hz
      | exact mul_pos hz hpow
      | exact div_pos hz hpow
      | exact div_pos (mul_pos hz hpow) hpow

/-- C9 witness: with every flag held, a pending override, dt = 1 and zoom
1, the zoom after the tick is still positive. -/
theorem zoom_positive_witness :
    0 < (CameraUniform.new 5).zoom ∧ 0 ≤ (1 : ℝ) ∧
    0 < (update_camera
        { is_up_pressed := true, is_down_pressed := true,
          is_left_pressed := true, is_right_pressed := true,
          zoom_in := true, zoom_out := true, aspect_ratio := some 2 }
        1 (CameraUniform.new 5)).2.1.zoom :=
  ⟨zoom_positive_invariant.1 5, by norm_num,
   zoom_positive_invariant.2
     { is_up_pressed := true, is_down_pressed := true,
       is_left_pressed := true, is_right_pressed := true,
       zoom_in := true, zoom_out := true, aspect_ratio := some 2 }
     1 (CameraUniform.new 5) (by norm_num) one_pos⟩

/-- With only the pan-right flag held and zoom 1, iterating update_camera
subtracts the total elapsed time from the x offset and keeps the zoom at
1. -/
theorem run_ticks_right_only (dts : List ℝ) (cam : CameraUniform)
    (hz : cam.zoom = 1) :
    (run_ticks right_only dts cam).2.offset.1 = cam.offset.1 - dts.sum ∧
    (run_ticks right_only dts cam).2.zoom = 1 := by
  induction dts generalizing cam with
  | nil => simp [run_ticks, hz]
  | cons d rest ih =>
      have h1 : (update_camera right_only d cam).1 = right_only := by
        rw [update_camera_eq]
        rfl
      have h2 : (update_camera right_only d cam).2.1.offset.1 =
          cam.offset.1 - d * 1 * cam.zoom := by
        rw [update_camera_eq]
        simp [right_only]
      have h3 : (update_camera right_only d cam).2.1.zoom = cam.zoom := by
        rw [update_camera_eq]
        simp [right_only]
      have hz2 : (update_camera right_only d cam).2.1.zoom = 1 := by
        rw [h3, hz]
      obtain ⟨ihx, ihz⟩ := ih (update_camera right_only d cam).2.1 hz2
      simp only [run_ticks, h1]
      refine ⟨?_, ?_⟩
      · rw [ihx, h2, hz, List.sum_cons]
        ring
      · exact ihz

/-- C6: each pan flag contributes dt * speed * zoom to exactly one axis of
the offset (left and right to x, up and down to y, zoom read at tick
entry); the per-tick delta doubles when the zoom doubles; and with only
pan-right held at zoom 1, ticks totalling one second decrease the x
offset by exactly one. -/
theorem pan_offset_properties (c : CameraController) (dt : ℝ)
    (cam : CameraUniform) (dts : List ℝ) :
    ((update_camera c dt cam).2.1.offset.1 =
        cam.offset.1 + (if c.is_left_pressed then dt * 1 * cam.zoom else 0)
          - (if c.is_right_pressed then dt * 1 * cam.zoom else 0)) ∧
    ((update_camera c dt cam).2.1.offset.2 =
        cam.offset.2 - (if c.is_up_pressed then dt * 1 * cam.zoom else 0)
          + (if c.is_down_pressed then dt * 1 * cam.zoom else 0)) ∧
    ((update_camera right_only dt { cam with zoom := 2 * cam.zoom }).2.1.offset.1
        - cam.offset.1 =
      2 * ((update_camera right_only dt cam).2.1.offset.1 - cam.offset.1)) ∧
    (cam.zoom = 1 → dts.sum = 1 →
      (run_ticks right_only dts cam).2.offset.1 = cam.offset.1 - 1) := by
  refine ⟨?_, ?_, ?_, fun hz hsum => ?_⟩
  · rw [update_camera_eq]
    cases hl : c.is_left_pressed <;> cases hr : c.is_right_pressed <;>
      simp [hl, hr]
  · rw [update_camera_eq]
    cases hu : c.is_up_pressed <;> cases hd : c.is_down_pressed <;>
      simp [hu, hd]
  · simp only [update_camera_eq]
    simp [right_only]
    ring
  · obtain ⟨ihx, _⟩ := run_ticks_right_only dts cam hz
    rw [ihx, hsum]

/-- C6 witness: two half-second pan-right ticks at zoom 1 move the x
offset from 0 down by exactly one. -/
theorem pan_offset_witness :
    (CameraUniform.new 1).zoom = 1 ∧
    ([(1 : ℝ) / 2, 1 / 2] : List ℝ).sum = 1 ∧
    (run_ticks right_only [(1 : ℝ) / 2, 1 / 2] (CameraUniform.new 1)).2.offset.1 =
      (CameraUniform.new 1).offset.1 - 1 :=
  ⟨rfl, by norm_num,
   (pan_offset_properties right_only 0 (CameraUniform.new 1)
       [(1 : ℝ) / 2, 1 / 2]).2.2.2 rfl (by norm_num)⟩

/-- The consumed flag returned by process_events is true exactly when the
event is routed to one of the six held flags. -/
theorem process_events_consumed (c : CameraController) (e : WindowEvent) :
    (process_events c e).2 = (eventTarget e).isSome := by
  cases e with
  | KeyboardInput st k =>
      cases k with
      | none => rfl
      | some kc => cases kc <;> rfl
  | Resized w h => rfl
  | CloseRequested => rfl
  | Other => rfl

/-- The controller returned by process_events is either unchanged, or the
input controller with exactly the routed flag set to the pressed state. -/
theorem process_events_state (c : CameraController) (e : WindowEvent) :
    (process_events c e).1 =
      (match eventTarget e with
       | none => c
       | some (f, b) => setFlag f b c) := by
  cases e with
  | KeyboardInput st k =>
      cases k with
      | none => rfl
      | some kc => cases kc <;> rfl
  | Resized w h => rfl
  | CloseRequested => rfl
  | Other => rfl

/-- Writing one flag changes that flag to the written value and no other
flag. -/
theorem getFlag_setFlag (f : FlagName) (b : Bool) (c : CameraController)
    (g : FlagName) :
    getFlag g (setFlag f b c) = if g = f then b else getFlag g c := by
  cases f <;> cases g <;> simp [getFlag, setFlag]

/-- Writing one flag never touches the pending aspect-ratio override. -/
theorem setFlag_aspect (f : FlagName) (b : Bool) (c : CameraController) :
    (setFlag f b c).aspect_ratio = c.aspect_ratio := by
  cases f <;> rfl

/-- Reprocessing the same event is idempotent. -/
theorem process_events_idem (c : CameraController) (e : WindowEvent) :
    process_events (process_events c e).1 e = process_events c e := by
  cases e with
  | KeyboardInput st k =>
      cases k with
      | none => rfl
      | some kc => cases kc <;> rfl
  | Resized w h => rfl
  | CloseRequested => rfl
  | Other => rfl

/-- Over any event sequence, each flag ends at the last value written for
its action, or at its initial value if no event wrote it. -/
theorem getFlag_processAll (c : CameraController) (es : List WindowEvent)
    (f : FlagName) :
    getFlag f (processAll c es) = lastWrite f es (getFlag f c) := by
  induction es generalizing c with
  | nil => rfl
  | cons e rest ih =>
      have ih2 := ih (process_events c e).1
      simp only [processAll, List.foldl_cons] at ih2 ⊢
      rw [ih2]
      simp only [lastWrite, List.foldl_cons]
      congr 1
      rw [process_events_state]
      rcases he : eventTarget e with _ | ⟨g, b⟩
      · simp [he]
      · by_cases hfg : f = g
        · subst hfg
          simp [he, getFlag_setFlag]
        · simp [he, getFlag_setFlag, hfg, Ne.symm hfg]

/-- C8: process_events either ignores the event and returns false, or
writes exactly one of the six held flags with the pressed state of the
event and returns true; the pending override and the other five flags are
untouched, reprocessing an event is idempotent, and over any event
sequence each flag equals the last value written for its action. -/
theorem process_events_characterization :
    (∀ (c : CameraController) (e : WindowEvent),
      (process_events c e).2 = (eventTarget e).isSome) ∧
    (∀ (c : CameraController) (e : WindowEvent),
      (process_events c e).1 =
        (match eventTarget e with
         | none => c
         | some (f, b) => setFlag f b c)) ∧
    (∀ (f : FlagName) (b : Bool) (c : CameraController) (g : FlagName),
      getFlag g (setFlag f b c) = if g = f then b else getFlag g c) ∧
    (∀ (f : FlagName) (b : Bool) (c : CameraController),
      (setFlag f b c).aspect_ratio = c.aspect_ratio) ∧
    (∀ (c : CameraController) (e : WindowEvent),
      process_events (process_events c e).1 e = process_events c e) ∧
    (∀ (c : CameraController) (es : List WindowEvent) (f : FlagName),
      getFlag f (processAll c es) = lastWrite f es (getFlag f c)) :=
  ⟨process_events_consumed, process_events_state, getFlag_setFlag,
   setFlag_aspect, process_events_idem, getFlag_processAll⟩

end ShaderToy
